import Mathlib

/-!
# CDO client: request construction and orchestration

A shallow embedding of the Go client of the CDO Terraform provider:

* `asaconfig.Update`, `asaconfig.UpdateCredentials`, `asaconfig.makeCredentials`
  (`client/internal/device/asaconfig/update.go`),
* `cloudftd.Create` (`client/device/cloudftd/create.go`),
* `connector.Delete` (`client/connector/delete.go`),
* `sdc.ReadAll` as the spec describes it, with the response of the third case of
  `TestReadAll` (`client/connector/sdc/readall_test.go`).

Conventions of the embedding.

* A Go function returning `(*T, error)` returns an `Outcome T`: either
  `returned out err`, with `out = none` for a nil pointer and `err = none` for a
  nil error, or `panicked` (a nil pointer dereference).
* Remote calls are answered by the fields of a `Client` record (the HTTP client
  together with the packages of the repository that the function calls into).
  Every function returns, next to its outcome, the list of remote calls it
  issued, in order (`Run.trace`). Logger calls are not recorded.
* The text produced by `json.Marshal` is `Client.Marshal doc`, where `doc : Json`
  is the document that the struct tags of the source describe.
* Go strings are Lean strings (sequences of Unicode code points).
-/

set_option autoImplicit false

/-- A Go error value, identified by its message. -/
structure Error where
  message : String
  deriving DecidableEq, Repr

/-- Result of a Go function of type `(*T, error)`. -/
inductive Outcome (α : Type) where
  | returned (out : Option α) (err : Option Error)
  | panicked

/-- A finished call: the remote calls issued, in order, and the outcome. -/
structure Run (Call α : Type) where
  trace : List Call
  outcome : Outcome α

/-- A JSON document: a string or an object with its fields in order. -/
inductive Json where
  | str (s : String)
  | obj (fields : List (String × Json))

/-- The value of the top-level field `name` of an object, if present. -/
def Json.field (name : String) : Json → Option Json
  | .obj fields => (fields.find? (fun kv => kv.1 == name)).map (fun kv => kv.2)
  | .str _ => none

/-- The names of the top-level fields of an object, in order. -/
def Json.keys : Json → List String
  | .obj fields => fields.map (fun kv => kv.1)
  | .str _ => []

mutual
/-- A JSON text encoder that copies strings without escaping. It stands for
`json.Marshal` on the concrete inputs below, whose strings need no escaping. -/
def Json.render : Json → String
  | .str s => "\"" ++ s ++ "\""
  | .obj fields => "\x7b" ++ Json.renderFields fields ++ "\x7d"
/-- The fields of an object, separated by commas. -/
def Json.renderFields : List (String × Json) → String
  | [] => ""
  | [(k, v)] => "\"" ++ k ++ "\":" ++ Json.render v
  | (k, v) :: rest => "\"" ++ k ++ "\":" ++ Json.render v ++ "," ++ Json.renderFields rest
end

/-- `string(b)` for a byte slice `b` that may be nil. -/
def bytesToString (b : Option String) : String := b.getD ""

namespace strings

/-- Representative of a rune under simple Unicode case folding, for the runes in
the orbit of an ASCII rune: the letters fold to lower case, U+017F (long s) folds
with `s` and U+212A (Kelvin sign) folds with `k`. Other runes are left fixed. -/
def foldKey (c : Char) : Char :=
  if c = Char.ofNat 0x17F then 's'
  else if c = Char.ofNat 0x212A then 'k'
  else c.toLower

/-- Go's `strings.EqualFold`: equality of the two rune sequences under simple
Unicode case folding. With `foldKey` the result is that of Go whenever one of the
arguments is ASCII, as both constants compared in `UpdateCredentials` are. -/
def EqualFold (s t : String) : Bool :=
  s.data.map foldKey == t.data.map foldKey

end strings

namespace sdc

/-- The public key of an on-premise connector (`sdc.PublicKey`). -/
structure PublicKey where
  EncodedKey : String
  Version : Int
  KeyId : String
  deriving DecidableEq, Repr

end sdc

namespace asaconfig

structure UpdateInput where
  SpecificUid : String
  Username : String
  Password : String
  PublicKey : Option sdc.PublicKey
  State : String
  deriving DecidableEq, Repr

structure UpdateOutput where
  Uid : String
  deriving DecidableEq, Repr

def NewUpdateInput (specificUid username password : String)
    (publicKey : Option sdc.PublicKey) (state : String) : UpdateInput :=
  { SpecificUid := specificUid, Username := username, Password := password,
    PublicKey := publicKey, State := state }

structure updateBody where
  State : String
  Credentials : String
  deriving DecidableEq, Repr

structure SmContext where
  Credentials : String
  deriving DecidableEq, Repr

structure updateCredentialsBodyWithState where
  State : String
  SmContext : SmContext
  deriving DecidableEq, Repr

structure updateCredentialsBody where
  SmContext : SmContext
  deriving DecidableEq, Repr

structure credentials where
  Username : String
  Password : String
  KeyId : String
  deriving DecidableEq, Repr

/-- The body handed to `client.NewPut`: one of the three body structs. -/
inductive PutBody where
  | update (b : updateBody)
  | credentials (b : updateCredentialsBody)
  | credentialsWithState (b : updateCredentialsBodyWithState)
  deriving DecidableEq, Repr

/-- A PUT request: `client.NewPut(ctx, url, body)` followed by `Send`. -/
structure PutRequest where
  url : String
  body : PutBody
  deriving DecidableEq, Repr

/-- Document of `credentials`: tags `username`, `password`, `keyId,omitempty`. -/
def credentials.toJson (c : credentials) : Json :=
  .obj ([("username", .str c.Username), ("password", .str c.Password)] ++
    (if c.KeyId = "" then [] else [("keyId", .str c.KeyId)]))

/-- Document of `SmContext`: tag `credentials`. -/
def SmContext.toJson (c : SmContext) : Json :=
  .obj [("credentials", .str c.Credentials)]

/-- Document of `updateBody`: tags `state`, `credentials`. -/
def updateBody.toJson (b : updateBody) : Json :=
  .obj [("state", .str b.State), ("credentials", .str b.Credentials)]

/-- Document of `updateCredentialsBodyWithState`: tags `state`, `stateMachineContext`. -/
def updateCredentialsBodyWithState.toJson (b : updateCredentialsBodyWithState) : Json :=
  .obj [("state", .str b.State), ("stateMachineContext", b.SmContext.toJson)]

/-- Document of `updateCredentialsBody`: tag `stateMachineContext`. -/
def updateCredentialsBody.toJson (b : updateCredentialsBody) : Json :=
  .obj [("stateMachineContext", b.SmContext.toJson)]

/-- The document that goes on the wire for a PUT body. -/
def PutBody.toJson : PutBody → Json
  | .update b => b.toJson
  | .credentials b => b.toJson
  | .credentialsWithState b => b.toJson

/-- The HTTP client and the collaborators of `asaconfig`.
`NewCiper` and `Encrypt` are the RSA utility (`internal/crypto/rsa`); `Encrypt`
takes the number of the call (0 for the user name, 1 for the password), so that
a randomised cipher is covered. `Marshal` is the text encoder of `json.Marshal`,
`UpdateAsaConfig` is `url.UpdateAsaConfig`, and `Send` answers a PUT request. -/
structure Client where
  BaseUrl : String
  UpdateAsaConfig : String → String → String
  Ciper : Type
  NewCiper : String → Except Error Ciper
  Encrypt : Ciper → Nat → String → String × Option Error
  Marshal : Json → String
  Send : PutRequest → Except Error UpdateOutput

/-- `encrypt(req *UpdateInput) error`: the request after the call and the error
returned; `none` is the nil dereference of `req.PublicKey`. -/
def encrypt (client : Client) (req : UpdateInput) : Option (UpdateInput × Option Error) :=
  match req.PublicKey with
  | none => none
  | some key =>
    match client.NewCiper key.EncodedKey with
    | .error err => some (req, some err)
    | .ok ciper =>
      match client.Encrypt ciper 0 req.Username with
      | (username, some err) => some ({ req with Username := username }, some err)
      | (username, none) =>
        let req := { req with Username := username }
        match client.Encrypt ciper 1 req.Password with
        | (password, some err) => some ({ req with Password := password }, some err)
        | (password, none) => some ({ req with Password := password }, none)

/-- `json.Marshal` applied to a `credentials` value; it cannot fail on a struct of
strings. -/
def marshalCredentials (client : Client) (c : credentials) : Outcome String :=
  .returned (some (client.Marshal c.toJson)) none

def makeCredentials (client : Client) (updateInp : UpdateInput) : Outcome String :=
  match updateInp.PublicKey with
  | some _ =>
    match encrypt client updateInp with
    | none => .panicked
    | some (_, some err) => .returned none (some err)
    | some (updateInp, none) =>
      match updateInp.PublicKey with
      | none => .panicked
      | some key =>
        marshalCredentials client
          { Username := updateInp.Username, Password := updateInp.Password, KeyId := key.KeyId }
  | none =>
    marshalCredentials client
      { Username := updateInp.Username, Password := updateInp.Password, KeyId := "" }

def makeReqBody (creds : Option String) : updateBody :=
  { State := "CERT_VALIDATED", Credentials := bytesToString creds }

def makeUpdateCredentialsReqBody (isWaitForUserToUpdateCreds : Bool)
    (creds : Option String) : PutBody :=
  if isWaitForUserToUpdateCreds then
    .credentials { SmContext := { Credentials := bytesToString creds } }
  else
    .credentialsWithState
      { State := "WAIT_FOR_USER_TO_UPDATE_CREDS",
        SmContext := { Credentials := bytesToString creds } }

def Update (client : Client) (updateInp : UpdateInput) : Run PutRequest UpdateOutput :=
  let url := client.UpdateAsaConfig client.BaseUrl updateInp.SpecificUid
  match makeCredentials client updateInp with
  | .panicked => ⟨[], .panicked⟩
  | .returned _ (some err) => ⟨[], .returned none (some err)⟩
  | .returned creds none =>
    let req : PutRequest := ⟨url, .update (makeReqBody creds)⟩
    match client.Send req with
    | .error err => ⟨[req], .returned none (some err)⟩
    | .ok outp => ⟨[req], .returned (some outp) none⟩

def UpdateCredentials (client : Client) (updateInput : UpdateInput) :
    Run PutRequest UpdateOutput :=
  let url := client.UpdateAsaConfig client.BaseUrl updateInput.SpecificUid
  match makeCredentials client updateInput with
  | .panicked => ⟨[], .panicked⟩
  | .returned _ (some err) => ⟨[], .returned none (some err)⟩
  | .returned creds none =>
    let isWaitForUserToUpdateCreds :=
      strings.EqualFold updateInput.State "WAIT_FOR_USER_TO_UPDATE_CREDS" ||
        strings.EqualFold updateInput.State "$PRE_WAIT_FOR_USER_TO_UPDATE_CREDS"
    let req : PutRequest := ⟨url, makeUpdateCredentialsReqBody isWaitForUserToUpdateCreds creds⟩
    match client.Send req with
    | .error err => ⟨[req], .returned none (some err)⟩
    | .ok outp => ⟨[req], .returned (some outp) none⟩

/-- A client for concrete runs: the cipher rejects the empty key and the empty
plaintext, and otherwise tags the plaintext with the number of the call; the
remote side accepts every request. -/
def sampleClient : Client where
  BaseUrl := "https://unittest.cdo.cisco.com"
  UpdateAsaConfig := fun baseUrl uid => baseUrl ++ "/aegis/rest/v1/services/asa/configs/" ++ uid
  Ciper := String
  NewCiper := fun key => if key = "" then .error ⟨"empty public key"⟩ else .ok key
  Encrypt := fun key n s =>
    if s = "" then ("", some ⟨"nothing to encrypt"⟩)
    else ("rsa(" ++ key ++ "," ++ toString n ++ "," ++ s ++ ")", none)
  Marshal := Json.render
  Send := fun _ => .ok ⟨"33333333-3333-3333-3333-333333333333"⟩

/-- A key as returned for an on-premise connector. -/
def sampleKey : sdc.PublicKey :=
  { EncodedKey := "QUJD", Version := 164, KeyId := "01010101-0101-0101-0101-010101010101" }

end asaconfig

namespace fmt

/-- Elements separated by a single blank. -/
def joinBlank : List String → String
  | [] => ""
  | [x] => x
  | x :: y :: rest => x ++ " " ++ joinBlank (y :: rest)

/-- The text that `fmt` prints for a slice under the verb `%s`: the elements,
each printed under `%s`, separated by blanks and enclosed in brackets. -/
def formatSlice (elems : List String) : String :=
  "[" ++ joinBlank elems ++ "]"

end fmt

/-- A text occurs in a message (as a contiguous part of it). -/
def Occurs (part msg : String) : Prop :=
  part.data <:+: msg.data

namespace cloudfmc

/-- Output of `cloudfmc.Read`; the fields that `cloudftd.Create` reads. -/
structure ReadOutput where
  Uid : String
  Host : String
  deriving DecidableEq, Repr

/-- An access policy of the list; the fields that `cloudftd.Create` reads. -/
structure Item where
  Id : String
  Name : String
  deriving DecidableEq, Repr

structure ReadAccessPoliciesOutput where
  Items : List Item
  deriving DecidableEq, Repr

/-- Modelled from the spec: `Find`, a method of the access-policy list declared in
package `cloudfmc`, which is not among the sources. The spec has Create "look up
the one matching `AccessPolicyName` by exact name": the first item of that name
with `true`, or the zero item with `false` when there is none. -/
def ReadAccessPoliciesOutput.Find (r : ReadAccessPoliciesOutput) (name : String) : Item × Bool :=
  match r.Items.find? (fun item => item.Name == name) with
  | some item => (item, true)
  | none => ({ Id := "", Name := "" }, false)

end cloudfmc

namespace fmcplatform

/-- A domain of the FMC; the field that `cloudftd.Create` reads. -/
structure DomainItem where
  Uuid : String
  deriving DecidableEq, Repr

structure ReadDomainInfoOutput where
  Items : List DomainItem
  deriving DecidableEq, Repr

end fmcplatform

namespace device

/-- Output of `device.ReadSpecific`; the field that `cloudftd.Create` reads. -/
structure ReadSpecificOutput where
  SpecificUid : String
  deriving DecidableEq, Repr

end device

namespace cloudftd

/-- The types that `create.go` takes from the model packages: `tier.Type`,
`license.Type`, `tags.Type` and `devicetype.Type`. -/
structure Decls where
  tier : Type
  license : Type
  tags : Type
  devicetype : Type

/-- The device metadata, with the fields that `Create` sets in the request body.
The fields it leaves at their zero value are not represented. -/
structure Metadata (D : Decls) where
  AccessPolicyName : String
  AccessPolicyUid : String
  LicenseCaps : String
  PerformanceTier : Option D.tier

structure CreateInput (D : Decls) where
  Name : String
  AccessPolicyName : String
  PerformanceTier : Option D.tier
  Virtual : Bool
  Licenses : Option (List D.license)
  Tags : D.tags

structure CreateOutput (D : Decls) where
  Uid : String
  Name : String
  Metadata : Option (Metadata D)
  Tags : D.tags

def NewCreateInput {D : Decls} (name accessPolicyName : String) (performanceTier : Option D.tier)
    (virtual : Bool) (licenses : Option (List D.license)) (tags : D.tags) : CreateInput D :=
  { Name := name, AccessPolicyName := accessPolicyName, PerformanceTier := performanceTier,
    Virtual := virtual, Licenses := licenses, Tags := tags }

structure createRequestBody (D : Decls) where
  FmcId : String
  DeviceType : D.devicetype
  Metadata : Option (Metadata D)
  Name : String
  State : String
  Type_ : String
  Model : Bool
  Tags : D.tags

/-- The remote calls of `Create`, with their arguments:
`cloudfmc.Read`, `fmcplatform.ReadFmcDomainInfo`, `cloudfmc.ReadAccessPolicies`,
the POST of the creation request, `device.ReadSpecific`, `UpdateSpecific`, and
`retry.Do` on `UntilGeneratedCommandAvailable`. -/
inductive Call (D : Decls) where
  | Read
  | ReadFmcDomainInfo (fmcHost : String)
  | ReadAccessPolicies (fmcHost domainUid : String) (limit : Nat)
  | Post (url : String) (body : createRequestBody D)
  | ReadSpecific (uid : String)
  | UpdateSpecific (specificUid state : String)
  | UntilGeneratedCommandAvailable (uid : String)

/-- The HTTP client and the collaborators of `cloudftd.Create`.
A collaborator of type `(*T, error)` answers with a pair of a pointer and an
error. `Send` answers the POST with the decoded response or an error.
`UpdateSpecific` gives the error only, its output being discarded by `Create`.
`UntilGeneratedCommandAvailable` is the whole poll `retry.Do(...)`: the error it
returns and the value it leaves in the `metadata` variable.
`CreateDevice` is `url.CreateDevice`, `CloudFtd` is `devicetype.CloudFtd`,
`SerializeAllAsCdo` is `license.SerializeAllAsCdo`, and `formatItem` is the text
that `fmt` prints for one access policy under `%s`. -/
structure Client (D : Decls) where
  BaseUrl : String
  CreateDevice : String → String
  CloudFtd : D.devicetype
  SerializeAllAsCdo : List D.license → String
  TerraformProviderCDOIssuesUrl : String
  formatItem : cloudfmc.Item → String
  Read : Option cloudfmc.ReadOutput × Option Error
  ReadFmcDomainInfo : String → Option fmcplatform.ReadDomainInfoOutput × Option Error
  ReadAccessPolicies : String → String → Nat →
    Option cloudfmc.ReadAccessPoliciesOutput × Option Error
  Send : String → createRequestBody D → Except Error (CreateOutput D)
  ReadSpecific : String → Option device.ReadSpecificOutput × Option Error
  UpdateSpecific : String → String → Option Error
  UntilGeneratedCommandAvailable : String → Option Error × Metadata D

/-- The error of `Create` for an access policy name that is not in the list. -/
def policyNotFound {D : Decls} (client : Client D) (accessPolicyName : String)
    (items : List cloudfmc.Item) : Error :=
  ⟨"access policy: \"" ++ accessPolicyName ++ "\" not found, available policies: " ++
    fmt.formatSlice (items.map client.formatItem) ++
    ". In rare cases where you have more than 1000 access policies, please raise an issue at: " ++
    client.TerraformProviderCDOIssuesUrl⟩

def Create {D : Decls} (client : Client D) (createInp : CreateInput D) :
    Run (Call D) (CreateOutput D) :=
  -- 1. read Cloud FMC
  match client.Read with
  | (_, some err) => ⟨[.Read], .returned none (some err)⟩
  | (none, none) => ⟨[.Read], .panicked⟩
  | (some fmcRes, none) =>
  -- 2. get FMC domain uid by reading Cloud FMC domain info
  match client.ReadFmcDomainInfo fmcRes.Host with
  | (_, some err) => ⟨[.Read, .ReadFmcDomainInfo fmcRes.Host], .returned none (some err)⟩
  | (none, none) => ⟨[.Read, .ReadFmcDomainInfo fmcRes.Host], .panicked⟩
  | (some readFmcDomainRes, none) =>
  match readFmcDomainRes.Items with
  | [] =>
    ⟨[.Read, .ReadFmcDomainInfo fmcRes.Host],
      .returned none (some ⟨"fmc domain info not found"⟩)⟩
  | domain :: _ =>
  -- 3. get access policies using Cloud FMC domain uid
  match client.ReadAccessPolicies fmcRes.Host domain.Uuid 1000 with
  | (_, some err) =>
    ⟨[.Read, .ReadFmcDomainInfo fmcRes.Host, .ReadAccessPolicies fmcRes.Host domain.Uuid 1000],
      .returned none (some err)⟩
  | (none, none) =>
    ⟨[.Read, .ReadFmcDomainInfo fmcRes.Host, .ReadAccessPolicies fmcRes.Host domain.Uuid 1000],
      .panicked⟩
  | (some accessPoliciesRes, none) =>
  match accessPoliciesRes.Find createInp.AccessPolicyName with
  | (_, false) =>
    ⟨[.Read, .ReadFmcDomainInfo fmcRes.Host, .ReadAccessPolicies fmcRes.Host domain.Uuid 1000],
      .returned none
        (some (policyNotFound client createInp.AccessPolicyName accessPoliciesRes.Items))⟩
  | (selectedPolicy, true) =>
  -- handle performance tier
  let performanceTier : Option D.tier :=
    if createInp.Virtual then createInp.PerformanceTier else none
  -- 4. create the cloud ftd device
  let createUrl := client.CreateDevice client.BaseUrl
  match createInp.Licenses with
  | none =>
    ⟨[.Read, .ReadFmcDomainInfo fmcRes.Host, .ReadAccessPolicies fmcRes.Host domain.Uuid 1000],
      .panicked⟩
  | some licenses =>
  let createBody : createRequestBody D :=
    { Name := createInp.Name
      FmcId := fmcRes.Uid
      DeviceType := client.CloudFtd
      Metadata := some
        { AccessPolicyName := selectedPolicy.Name
          AccessPolicyUid := selectedPolicy.Id
          LicenseCaps := client.SerializeAllAsCdo licenses
          PerformanceTier := performanceTier }
      State := "NEW"
      Type_ := "devices"
      Model := false
      Tags := createInp.Tags }
  match client.Send createUrl createBody with
  | .error err =>
    ⟨[.Read, .ReadFmcDomainInfo fmcRes.Host, .ReadAccessPolicies fmcRes.Host domain.Uuid 1000,
        .Post createUrl createBody],
      .returned none (some err)⟩
  | .ok createOup =>
  -- 5. read created cloud ftd's specific device's uid
  match client.ReadSpecific createOup.Uid with
  | (_, some err) =>
    ⟨[.Read, .ReadFmcDomainInfo fmcRes.Host, .ReadAccessPolicies fmcRes.Host domain.Uuid 1000,
        .Post createUrl createBody, .ReadSpecific createOup.Uid],
      .returned none (some err)⟩
  | (none, none) =>
    ⟨[.Read, .ReadFmcDomainInfo fmcRes.Host, .ReadAccessPolicies fmcRes.Host domain.Uuid 1000,
        .Post createUrl createBody, .ReadSpecific createOup.Uid],
      .panicked⟩
  | (some readSpecRes, none) =>
  -- 6. initiate cloud ftd onboarding by triggering an endpoint at the specific device
  match client.UpdateSpecific readSpecRes.SpecificUid "INITIATE_FTDC_ONBOARDING" with
  | some err =>
    ⟨[.Read, .ReadFmcDomainInfo fmcRes.Host, .ReadAccessPolicies fmcRes.Host domain.Uuid 1000,
        .Post createUrl createBody, .ReadSpecific createOup.Uid,
        .UpdateSpecific readSpecRes.SpecificUid "INITIATE_FTDC_ONBOARDING"],
      .returned none (some err)⟩
  | none =>
  -- 8. wait for generate command available
  match client.UntilGeneratedCommandAvailable createOup.Uid with
  | (some err, _) =>
    ⟨[.Read, .ReadFmcDomainInfo fmcRes.Host, .ReadAccessPolicies fmcRes.Host domain.Uuid 1000,
        .Post createUrl createBody, .ReadSpecific createOup.Uid,
        .UpdateSpecific readSpecRes.SpecificUid "INITIATE_FTDC_ONBOARDING",
        .UntilGeneratedCommandAvailable createOup.Uid],
      .returned none (some err)⟩
  | (none, metadata) =>
  -- done!
  ⟨[.Read, .ReadFmcDomainInfo fmcRes.Host, .ReadAccessPolicies fmcRes.Host domain.Uuid 1000,
      .Post createUrl createBody, .ReadSpecific createOup.Uid,
      .UpdateSpecific readSpecRes.SpecificUid "INITIATE_FTDC_ONBOARDING",
      .UntilGeneratedCommandAvailable createOup.Uid],
    .returned (some
      { Uid := createOup.Uid, Name := createOup.Name, Metadata := some metadata,
        Tags := createOup.Tags }) none⟩

/-- The request body that `Create` posts, for the FMC record, the selected
policy and the licences at hand. -/
def requestBody {D : Decls} (client : Client D) (createInp : CreateInput D)
    (fmcRes : cloudfmc.ReadOutput) (selectedPolicy : cloudfmc.Item)
    (licenses : List D.license) : createRequestBody D :=
  { Name := createInp.Name
    FmcId := fmcRes.Uid
    DeviceType := client.CloudFtd
    Metadata := some
      { AccessPolicyName := selectedPolicy.Name
        AccessPolicyUid := selectedPolicy.Id
        LicenseCaps := client.SerializeAllAsCdo licenses
        PerformanceTier := if createInp.Virtual then createInp.PerformanceTier else none }
    State := "NEW"
    Type_ := "devices"
    Model := false
    Tags := createInp.Tags }

/-- Strings for the tier, the licences and the device type, a list of labels
for the tags. -/
def sampleDecls : Decls :=
  { tier := String, license := String, tags := List String, devicetype := String }

/-- A remote side for concrete runs. It offers the access policies "Default
Access Control Policy" and "Strict". Step `failAt` of the workflow (1 to 7)
answers with an error, `failAt = 8` gives an empty domain list, and any other
value lets every step succeed. -/
def sampleClient (failAt : Nat) : Client sampleDecls where
  BaseUrl := "https://unittest.cdo.cisco.com"
  CreateDevice := fun baseUrl => baseUrl ++ "/aegis/rest/v1/services/targets/devices"
  CloudFtd := "FTDC"
  SerializeAllAsCdo := fun licenses => ",".intercalate licenses
  TerraformProviderCDOIssuesUrl := "https://github.com/CiscoDevnet/terraform-provider-cdo/issues"
  formatItem := fun item => "\x7b" ++ item.Id ++ " " ++ item.Name ++ "\x7d"
  Read :=
    if failAt = 1 then (none, some ⟨"cloud fmc not found"⟩)
    else (some { Uid := "fmc-uid", Host := "fmc.unittest.cdo.cisco.com" }, none)
  ReadFmcDomainInfo := fun _ =>
    if failAt = 2 then (none, some ⟨"domain info unavailable"⟩)
    else if failAt = 8 then (some { Items := [] }, none)
    else (some { Items := [{ Uuid := "domain-uuid" }] }, none)
  ReadAccessPolicies := fun _ _ _ =>
    if failAt = 3 then (none, some ⟨"access policies unavailable"⟩)
    else (some { Items := [{ Id := "policy-1", Name := "Default Access Control Policy" },
                           { Id := "policy-2", Name := "Strict" }] }, none)
  Send := fun _ body =>
    if failAt = 4 then .error ⟨"device creation rejected"⟩
    else .ok { Uid := "ftd-uid", Name := body.Name, Metadata := body.Metadata, Tags := body.Tags }
  ReadSpecific := fun _ =>
    if failAt = 5 then (none, some ⟨"specific device not found"⟩)
    else (some { SpecificUid := "ftd-specific-uid" }, none)
  UpdateSpecific := fun _ _ =>
    if failAt = 6 then some ⟨"onboarding rejected"⟩ else none
  UntilGeneratedCommandAvailable := fun _ =>
    if failAt = 7 then
      (some ⟨"retries exhausted"⟩,
        { AccessPolicyName := "", AccessPolicyUid := "", LicenseCaps := "", PerformanceTier := none })
    else
      (none,
        { AccessPolicyName := "Default Access Control Policy", AccessPolicyUid := "policy-1",
          LicenseCaps := "BASE", PerformanceTier := some "FTDv5" })

/-- A request for a device under the policy `accessPolicyName`. -/
def sampleInput (accessPolicyName : String) (virtual : Bool) : CreateInput sampleDecls :=
  NewCreateInput "ftd-1" accessPolicyName (some "FTDv10") virtual (some ["BASE"]) ["lab"]

end cloudftd

namespace connector

structure DeleteInput where
  Uid : String
  deriving DecidableEq, Repr

def NewDeleteInput (uid : String) : DeleteInput :=
  { Uid := uid }

structure DeleteOutput where
  deriving DecidableEq, Repr

/-- A DELETE request: `client.NewDelete(ctx, url)` followed by `Send`. -/
structure DeleteRequest where
  url : String
  deriving DecidableEq, Repr

/-- The HTTP client and the collaborators of `connector.Delete`:
`DeleteConnector` is `url.DeleteConnector`, and `Send` answers a DELETE request. -/
structure Client where
  BaseUrl : String
  DeleteConnector : String → String → String
  Send : DeleteRequest → Except Error DeleteOutput

def Delete (client : Client) (inp : DeleteInput) : Run DeleteRequest DeleteOutput :=
  let url := client.DeleteConnector client.BaseUrl inp.Uid
  let req : DeleteRequest := ⟨url⟩
  match client.Send req with
  | .error err => ⟨[req], .returned (some {}) (some err)⟩
  | .ok deleteOutp => ⟨[req], .returned (some deleteOutp) none⟩

/-- A remote side for concrete runs: it knows one connector and answers the
deletion of any other with an error. -/
def sampleClient : Client where
  BaseUrl := "https://unittest.cdo.cisco.com"
  DeleteConnector := fun baseUrl uid => baseUrl ++ "/aegis/rest/v1/services/targets/proxies/" ++ uid
  Send := fun req =>
    if req.url = "https://unittest.cdo.cisco.com/aegis/rest/v1/services/targets/proxies/22222222-2222-2222-2222-222222222222"
    then .ok {}
    else .error ⟨"connector not found"⟩

end connector

namespace sdc

/-- A connector as read from the remote side (`sdc.ReadOutput`), with the fields
that the response builder of the tests sets. -/
structure ReadOutput where
  Uid : String
  Name : String
  TenantUid : String
  DefaultLar : Bool
  Cdg : Bool
  PublicKey : PublicKey
  deriving DecidableEq, Repr

/-- The list of connectors (`sdc.ReadAllOutput`). -/
abbrev ReadAllOutput := List ReadOutput

/-- An HTTP response: status code and body. -/
structure Response where
  status : Nat
  body : String
  deriving DecidableEq, Repr

/-- The HTTP client and the collaborators of `sdc.ReadAll`: `ReadAllConnectors`
builds the URL, `Get` is the transport (a response, or a transport failure),
`Decode` reads the JSON body of a response, and `UpstreamError` is the error made
from a response that is not a success. -/
structure Client where
  BaseUrl : String
  ReadAllConnectors : String → String
  Get : String → Except Error Response
  Decode : String → Except Error ReadAllOutput
  UpstreamError : Response → Error

/-- Modelled from the spec: `Request.Send` of the HTTP client, which is not among
the sources. The spec has every call "issue the HTTP call, decode the typed JSON
response, translate non-2xx / transport failures into the caller's error". -/
def Send (client : Client) (url : String) : Except Error ReadAllOutput :=
  match client.Get url with
  | .error err => .error err
  | .ok resp =>
    if 200 ≤ resp.status ∧ resp.status < 300 then client.Decode resp.body
    else .error (client.UpstreamError resp)

/-- Modelled from the spec: `sdc.ReadAll`, which is not among the sources (its test
is). The spec gives it the uniform shape "build a URL from a base + resource
path, issue the HTTP call, decode the typed JSON response, translate non-2xx /
transport failures into the caller's error", and "a remote 5xx on `ReadAll` must
propagate as a non-nil error with a nil output pointer". -/
def ReadAll (client : Client) : Run String ReadAllOutput :=
  let url := client.ReadAllConnectors client.BaseUrl
  match Send client url with
  | .error err => ⟨[url], .returned none (some err)⟩
  | .ok outp => ⟨[url], .returned (some outp) none⟩

/-- The response that the third case of `TestReadAll` ("return error when
fetching all secure connectors and remote service encounters issue") registers
for GET /aegis/rest/v1/services/targets/proxies. -/
def remoteIssueResponder : Response :=
  { status := 500, body := "service is experiencing issues" }

/-- The client of the tests, `http.NewWithDefault("https://unittest.cdo.cisco.com",
"a_valid_token")`, with the mocked transport answering the registered path. The
error made from a response that is not a success carries the body of the
response. -/
def testClient (responder : Response) : Client where
  BaseUrl := "https://unittest.cdo.cisco.com"
  ReadAllConnectors := fun baseUrl => baseUrl ++ "/aegis/rest/v1/services/targets/proxies"
  Get := fun url =>
    if url = "https://unittest.cdo.cisco.com/aegis/rest/v1/services/targets/proxies"
    then .ok responder
    else .error ⟨"no responder found"⟩
  Decode := fun body => if body = "[]" then .ok [] else .error ⟨"invalid JSON"⟩
  UpstreamError := fun resp => ⟨resp.body⟩

end sdc

/-! ## Theorems -/

namespace asaconfig

theorem makeCredentials_of_nil_key (client : Client) (inp : UpdateInput)
    (h : inp.PublicKey = none) :
    makeCredentials client inp =
      .returned (some (client.Marshal
        (.obj [("username", .str inp.Username), ("password", .str inp.Password)]))) none := by
  simp [makeCredentials, h, marshalCredentials, credentials.toJson]

theorem Update_of_creds (client : Client) (inp : UpdateInput) (creds : Option String)
    (h : makeCredentials client inp = .returned creds none) :
    (Update client inp).trace =
      [⟨client.UpdateAsaConfig client.BaseUrl inp.SpecificUid, .update (makeReqBody creds)⟩] := by
  simp only [Update, h]
  split <;> rfl

theorem UpdateCredentials_of_creds (client : Client) (inp : UpdateInput)
    (creds : Option String) (h : makeCredentials client inp = .returned creds none) :
    (UpdateCredentials client inp).trace =
      [⟨client.UpdateAsaConfig client.BaseUrl inp.SpecificUid,
        makeUpdateCredentialsReqBody
          (strings.EqualFold inp.State "WAIT_FOR_USER_TO_UPDATE_CREDS" ||
            strings.EqualFold inp.State "$PRE_WAIT_FOR_USER_TO_UPDATE_CREDS") creds⟩] := by
  simp only [UpdateCredentials, h]
  split <;> rfl

theorem Update_of_err (client : Client) (inp : UpdateInput) (x : Option String) (e : Error)
    (h : makeCredentials client inp = .returned x (some e)) :
    Update client inp = ⟨[], .returned none (some e)⟩ ∧
      UpdateCredentials client inp = ⟨[], .returned none (some e)⟩ := by
  simp [Update, UpdateCredentials, h]

theorem makeCredentials_of_key (client : Client) (inp : UpdateInput) (key : sdc.PublicKey)
    (c : client.Ciper) (u p : String) (hk : inp.PublicKey = some key)
    (hc : client.NewCiper key.EncodedKey = .ok c)
    (hu : client.Encrypt c 0 inp.Username = (u, none))
    (hp : client.Encrypt c 1 inp.Password = (p, none)) :
    makeCredentials client inp =
      .returned (some (client.Marshal
        (credentials.toJson { Username := u, Password := p, KeyId := key.KeyId }))) none := by
  simp [makeCredentials, encrypt, hk, hc, hu, hp, marshalCredentials]

theorem makeCredentials_of_NewCiper_err (client : Client) (inp : UpdateInput)
    (key : sdc.PublicKey) (e : Error) (hk : inp.PublicKey = some key)
    (hc : client.NewCiper key.EncodedKey = .error e) :
    makeCredentials client inp = .returned none (some e) := by
  simp [makeCredentials, encrypt, hk, hc]

theorem makeCredentials_of_Username_err (client : Client) (inp : UpdateInput)
    (key : sdc.PublicKey) (c : client.Ciper) (x : String) (e : Error)
    (hk : inp.PublicKey = some key) (hc : client.NewCiper key.EncodedKey = .ok c)
    (hu : client.Encrypt c 0 inp.Username = (x, some e)) :
    makeCredentials client inp = .returned none (some e) := by
  simp [makeCredentials, encrypt, hk, hc, hu]

theorem makeCredentials_of_Password_err (client : Client) (inp : UpdateInput)
    (key : sdc.PublicKey) (c : client.Ciper) (u x : String) (e : Error)
    (hk : inp.PublicKey = some key) (hc : client.NewCiper key.EncodedKey = .ok c)
    (hu : client.Encrypt c 0 inp.Username = (u, none))
    (hp : client.Encrypt c 1 inp.Password = (x, some e)) :
    makeCredentials client inp = .returned none (some e) := by
  simp [makeCredentials, encrypt, hk, hc, hu, hp]

/-- C3, as stated, fails. The state "$PRE_WAIT_FOR_USER_TO_UPDATE_CREDS" is not
equal to "WAIT_FOR_USER_TO_UPDATE_CREDS" under case folding, and yet the PUT body
that `UpdateCredentials` sends for it has the single top-level field
`stateMachineContext`: no `state` field. -/
theorem UpdateCredentials_other_state_counterexample :
    strings.EqualFold "$PRE_WAIT_FOR_USER_TO_UPDATE_CREDS" "WAIT_FOR_USER_TO_UPDATE_CREDS" = false ∧
    (UpdateCredentials sampleClient
        (NewUpdateInput "44444444-4444-4444-4444-444444444444" "admin" "secret" none
          "$PRE_WAIT_FOR_USER_TO_UPDATE_CREDS")).trace.map
      (fun req => (req.body.toJson.keys, req.body.toJson.field "state" |>.isSome)) =
      [(["stateMachineContext"], false)] := by
  constructor
  · decide
  · decide

/-- C3, amended. Whenever `UpdateCredentials` gets to send its PUT request (the
credentials were built), the body has no top-level `state` field, only
`stateMachineContext`, if `State` equals "WAIT_FOR_USER_TO_UPDATE_CREDS" or
"$PRE_WAIT_FOR_USER_TO_UPDATE_CREDS" ignoring case, and for every State equal to
neither it has the top-level `state` field set to "WAIT_FOR_USER_TO_UPDATE_CREDS". -/
theorem UpdateCredentials_state_field (client : Client) (inp : UpdateInput)
    (creds : Option String) (h : makeCredentials client inp = .returned creds none) :
    ∃ body, (UpdateCredentials client inp).trace =
        [⟨client.UpdateAsaConfig client.BaseUrl inp.SpecificUid, body⟩] ∧
      (strings.EqualFold inp.State "WAIT_FOR_USER_TO_UPDATE_CREDS" = true →
        body.toJson.keys = ["stateMachineContext"] ∧ body.toJson.field "state" = none) ∧
      (strings.EqualFold inp.State "$PRE_WAIT_FOR_USER_TO_UPDATE_CREDS" = true →
        body.toJson.keys = ["stateMachineContext"] ∧ body.toJson.field "state" = none) ∧
      (strings.EqualFold inp.State "WAIT_FOR_USER_TO_UPDATE_CREDS" = false →
        strings.EqualFold inp.State "$PRE_WAIT_FOR_USER_TO_UPDATE_CREDS" = false →
        body.toJson.keys = ["state", "stateMachineContext"] ∧
        body.toJson.field "state" = some (.str "WAIT_FOR_USER_TO_UPDATE_CREDS")) := by
  refine ⟨_, UpdateCredentials_of_creds client inp creds h, ?_, ?_, ?_⟩
  · intro h1
    simp [h1, makeUpdateCredentialsReqBody, PutBody.toJson, updateCredentialsBody.toJson,
      Json.keys, Json.field]
  · intro h2
    simp [h2, makeUpdateCredentialsReqBody, PutBody.toJson, updateCredentialsBody.toJson,
      Json.keys, Json.field]
  · intro h1 h2
    simp [h1, h2, makeUpdateCredentialsReqBody, PutBody.toJson,
      updateCredentialsBodyWithState.toJson, Json.keys, Json.field]

/-- Witness of C3, amended: a request in state "wait_for_user_to_update_creds". -/
theorem UpdateCredentials_state_field_witness :
    makeCredentials sampleClient
        (NewUpdateInput "44444444-4444-4444-4444-444444444444" "admin" "secret" none
          "wait_for_user_to_update_creds") =
      .returned (some "\x7b\"username\":\"admin\",\"password\":\"secret\"\x7d") none ∧
    ∃ body, (UpdateCredentials sampleClient
        (NewUpdateInput "44444444-4444-4444-4444-444444444444" "admin" "secret" none
          "wait_for_user_to_update_creds")).trace =
        [⟨"https://unittest.cdo.cisco.com/aegis/rest/v1/services/asa/configs/44444444-4444-4444-4444-444444444444",
          body⟩] ∧
      body.toJson.keys = ["stateMachineContext"] ∧ body.toJson.field "state" = none := by
  have h : makeCredentials sampleClient
        (NewUpdateInput "44444444-4444-4444-4444-444444444444" "admin" "secret" none
          "wait_for_user_to_update_creds") =
      .returned (some "\x7b\"username\":\"admin\",\"password\":\"secret\"\x7d") none := by
    rfl
  obtain ⟨body, hb, h1, _, _⟩ := UpdateCredentials_state_field sampleClient _ _ h
  exact ⟨h, body, hb, h1 (by decide)⟩

/-- C4. Whenever `UpdateCredentials` gets to send its PUT request, the body is
the shape without a `state` field if and only if State equals, ignoring case,
"WAIT_FOR_USER_TO_UPDATE_CREDS" or "$PRE_WAIT_FOR_USER_TO_UPDATE_CREDS"; otherwise
it is the shape with state "WAIT_FOR_USER_TO_UPDATE_CREDS". In both shapes
`stateMachineContext.credentials` is the text returned by `makeCredentials`. -/
theorem UpdateCredentials_body_selection (client : Client) (inp : UpdateInput)
    (creds : Option String) (h : makeCredentials client inp = .returned creds none) :
    ∃ body, (UpdateCredentials client inp).trace =
        [⟨client.UpdateAsaConfig client.BaseUrl inp.SpecificUid, body⟩] ∧
      (body = .credentials { SmContext := { Credentials := bytesToString creds } } ↔
        (strings.EqualFold inp.State "WAIT_FOR_USER_TO_UPDATE_CREDS" = true ∨
          strings.EqualFold inp.State "$PRE_WAIT_FOR_USER_TO_UPDATE_CREDS" = true)) ∧
      (body.toJson.field "state" = none ↔
        (strings.EqualFold inp.State "WAIT_FOR_USER_TO_UPDATE_CREDS" = true ∨
          strings.EqualFold inp.State "$PRE_WAIT_FOR_USER_TO_UPDATE_CREDS" = true)) ∧
      (¬ (strings.EqualFold inp.State "WAIT_FOR_USER_TO_UPDATE_CREDS" = true ∨
          strings.EqualFold inp.State "$PRE_WAIT_FOR_USER_TO_UPDATE_CREDS" = true) →
        body = .credentialsWithState
            { State := "WAIT_FOR_USER_TO_UPDATE_CREDS",
              SmContext := { Credentials := bytesToString creds } } ∧
          body.toJson.field "state" = some (.str "WAIT_FOR_USER_TO_UPDATE_CREDS")) ∧
      body.toJson.field "stateMachineContext" =
        some (.obj [("credentials", .str (bytesToString creds))]) := by
  refine ⟨_, UpdateCredentials_of_creds client inp creds h, ?_⟩
  cases h1 : strings.EqualFold inp.State "WAIT_FOR_USER_TO_UPDATE_CREDS" <;>
    cases h2 : strings.EqualFold inp.State "$PRE_WAIT_FOR_USER_TO_UPDATE_CREDS" <;>
    simp [makeUpdateCredentialsReqBody, PutBody.toJson, updateCredentialsBody.toJson,
      updateCredentialsBodyWithState.toJson, SmContext.toJson, Json.field]

/-- Witness of C4: a request in state "NEW" with a public key. -/
theorem UpdateCredentials_body_selection_witness :
    makeCredentials sampleClient
        (NewUpdateInput "44444444-4444-4444-4444-444444444444" "admin" "secret"
          (some sampleKey) "NEW") =
      .returned (some (Json.render (.obj [("username", .str "rsa(QUJD,0,admin)"),
        ("password", .str "rsa(QUJD,1,secret)"),
        ("keyId", .str "01010101-0101-0101-0101-010101010101")]))) none ∧
    (UpdateCredentials sampleClient
        (NewUpdateInput "44444444-4444-4444-4444-444444444444" "admin" "secret"
          (some sampleKey) "NEW")).trace =
      [⟨"https://unittest.cdo.cisco.com/aegis/rest/v1/services/asa/configs/44444444-4444-4444-4444-444444444444",
        .credentialsWithState
          { State := "WAIT_FOR_USER_TO_UPDATE_CREDS",
            SmContext := { Credentials := Json.render (.obj [("username", .str "rsa(QUJD,0,admin)"),
              ("password", .str "rsa(QUJD,1,secret)"),
              ("keyId", .str "01010101-0101-0101-0101-010101010101")]) } }⟩] := by
  have h : makeCredentials sampleClient
        (NewUpdateInput "44444444-4444-4444-4444-444444444444" "admin" "secret"
          (some sampleKey) "NEW") =
      .returned (some (Json.render (.obj [("username", .str "rsa(QUJD,0,admin)"),
        ("password", .str "rsa(QUJD,1,secret)"),
        ("keyId", .str "01010101-0101-0101-0101-010101010101")]))) none := by
    rfl
  obtain ⟨body, hb, _, _, h3, _⟩ := UpdateCredentials_body_selection sampleClient _ _ h
  refine ⟨h, ?_⟩
  rw [hb, (h3 (by decide)).1]
  rfl

/-- C5. For every UpdateInput with a nil PublicKey, `makeCredentials` succeeds and
returns the JSON text of the document with exactly the fields `username` and
`password`, holding the plaintext Username and Password; the document has no
`keyId` field. `Update` and `UpdateCredentials` send that text as credentials. -/
theorem makeCredentials_clear_text (client : Client) (inp : UpdateInput)
    (h : inp.PublicKey = none) :
    makeCredentials client inp =
      .returned (some (client.Marshal
        (.obj [("username", .str inp.Username), ("password", .str inp.Password)]))) none ∧
    (Json.obj [("username", .str inp.Username), ("password", .str inp.Password)]).keys =
      ["username", "password"] ∧
    (Json.obj [("username", .str inp.Username), ("password", .str inp.Password)]).field "keyId" =
      none ∧
    (Update client inp).trace =
      [⟨client.UpdateAsaConfig client.BaseUrl inp.SpecificUid,
        .update { State := "CERT_VALIDATED",
                  Credentials := client.Marshal
                    (.obj [("username", .str inp.Username), ("password", .str inp.Password)]) }⟩] ∧
    (UpdateCredentials client inp).trace =
      [⟨client.UpdateAsaConfig client.BaseUrl inp.SpecificUid,
        makeUpdateCredentialsReqBody
          (strings.EqualFold inp.State "WAIT_FOR_USER_TO_UPDATE_CREDS" ||
            strings.EqualFold inp.State "$PRE_WAIT_FOR_USER_TO_UPDATE_CREDS")
          (some (client.Marshal
            (.obj [("username", .str inp.Username), ("password", .str inp.Password)])))⟩] := by
  have hc := makeCredentials_of_nil_key client inp h
  refine ⟨hc, by simp [Json.keys], by simp [Json.field], ?_, ?_⟩
  · rw [Update_of_creds client inp _ hc]
    simp [makeReqBody, bytesToString]
  · exact UpdateCredentials_of_creds client inp _ hc

/-- Witness of C5: user "admin", password "secret", no public key. -/
theorem makeCredentials_clear_text_witness :
    makeCredentials sampleClient
        (NewUpdateInput "44444444-4444-4444-4444-444444444444" "admin" "secret" none "NEW") =
      .returned (some "\x7b\"username\":\"admin\",\"password\":\"secret\"\x7d") none :=
  (makeCredentials_clear_text sampleClient
    (NewUpdateInput "44444444-4444-4444-4444-444444444444" "admin" "secret" none "NEW") rfl).1

theorem sampleClient_Encrypt_ne (c : sampleClient.Ciper) (n : Nat) (s out : String)
    (h : sampleClient.Encrypt c n s = (out, none)) : out ≠ s := by
  by_cases hs : s = ""
  · simp [sampleClient, hs] at h
  · simp only [sampleClient, hs, if_false, Prod.mk.injEq, and_true] at h
    intro heq
    have hlen := congrArg String.length heq
    rw [← h] at hlen
    simp only [String.length_append] at hlen
    have h4 : "rsa(".length = 4 := by decide
    omega

/-- C6, as stated, fails. With a non-nil PublicKey whose KeyId is empty the
encryption succeeds, and the serialized credentials carry the two cipher outputs
but no `keyId` field. -/
theorem makeCredentials_empty_KeyId_counterexample :
    makeCredentials sampleClient
        (NewUpdateInput "44444444-4444-4444-4444-444444444444" "admin" "secret"
          (some { EncodedKey := "QUJD", Version := 164, KeyId := "" }) "NEW") =
      .returned (some
        "\x7b\"username\":\"rsa(QUJD,0,admin)\",\"password\":\"rsa(QUJD,1,secret)\"\x7d") none ∧
    sampleClient.Marshal (.obj [("username", .str "rsa(QUJD,0,admin)"),
        ("password", .str "rsa(QUJD,1,secret)")]) =
      "\x7b\"username\":\"rsa(QUJD,0,admin)\",\"password\":\"rsa(QUJD,1,secret)\"\x7d" ∧
    (Json.obj [("username", .str "rsa(QUJD,0,admin)"),
        ("password", .str "rsa(QUJD,1,secret)")]).field "keyId" = none := by
  exact ⟨rfl, rfl, rfl⟩

/-- C6, amended. For every UpdateInput with a non-nil PublicKey for which building
the cipher and both encryptions succeed, the credentials sent by `Update` and
`UpdateCredentials` carry as `username` and `password` the outputs of the cipher
on Username and Password (not the plaintext inputs, the cipher being one that
never returns its input); a `keyId` field equal to PublicKey.KeyId is present when
PublicKey.KeyId is not empty, and no `keyId` field is present when it is empty.
If building the cipher or either encryption fails with an error, both operations
return that error with a nil output and send no request. -/
theorem makeCredentials_encrypted (client : Client) (inp : UpdateInput)
    (key : sdc.PublicKey) (hk : inp.PublicKey = some key) :
    (∀ (c : client.Ciper) (u p : String),
      client.NewCiper key.EncodedKey = .ok c →
      client.Encrypt c 0 inp.Username = (u, none) →
      client.Encrypt c 1 inp.Password = (p, none) →
      ∃ doc : Json,
        makeCredentials client inp = .returned (some (client.Marshal doc)) none ∧
        doc.field "username" = some (.str u) ∧
        doc.field "password" = some (.str p) ∧
        ((∀ (c' : client.Ciper) (n : Nat) (s out : String),
            client.Encrypt c' n s = (out, none) → out ≠ s) →
          doc.field "username" ≠ some (.str inp.Username) ∧
          doc.field "password" ≠ some (.str inp.Password)) ∧
        (key.KeyId ≠ "" →
          doc.keys = ["username", "password", "keyId"] ∧
          doc.field "keyId" = some (.str key.KeyId)) ∧
        (key.KeyId = "" →
          doc.keys = ["username", "password"] ∧ doc.field "keyId" = none) ∧
        (Update client inp).trace =
          [⟨client.UpdateAsaConfig client.BaseUrl inp.SpecificUid,
            .update { State := "CERT_VALIDATED", Credentials := client.Marshal doc }⟩] ∧
        (UpdateCredentials client inp).trace =
          [⟨client.UpdateAsaConfig client.BaseUrl inp.SpecificUid,
            makeUpdateCredentialsReqBody
              (strings.EqualFold inp.State "WAIT_FOR_USER_TO_UPDATE_CREDS" ||
                strings.EqualFold inp.State "$PRE_WAIT_FOR_USER_TO_UPDATE_CREDS")
              (some (client.Marshal doc))⟩]) ∧
    (∀ e : Error, client.NewCiper key.EncodedKey = .error e →
      Update client inp = ⟨[], .returned none (some e)⟩ ∧
      UpdateCredentials client inp = ⟨[], .returned none (some e)⟩) ∧
    (∀ (c : client.Ciper) (x : String) (e : Error),
      client.NewCiper key.EncodedKey = .ok c →
      client.Encrypt c 0 inp.Username = (x, some e) →
      Update client inp = ⟨[], .returned none (some e)⟩ ∧
      UpdateCredentials client inp = ⟨[], .returned none (some e)⟩) ∧
    (∀ (c : client.Ciper) (u x : String) (e : Error),
      client.NewCiper key.EncodedKey = .ok c →
      client.Encrypt c 0 inp.Username = (u, none) →
      client.Encrypt c 1 inp.Password = (x, some e) →
      Update client inp = ⟨[], .returned none (some e)⟩ ∧
      UpdateCredentials client inp = ⟨[], .returned none (some e)⟩) := by
  refine ⟨?_, ?_, ?_, ?_⟩
  · intro c u p hc hu hp
    have hm := makeCredentials_of_key client inp key c u p hk hc hu hp
    refine ⟨_, hm, ?_, ?_, ?_, ?_, ?_, ?_, ?_⟩
    · simp [credentials.toJson, Json.field]
    · simp [credentials.toJson, Json.field]
    · intro hcipher
      have hu' := hcipher c 0 inp.Username u hu
      have hp' := hcipher c 1 inp.Password p hp
      simp [credentials.toJson, Json.field, hu', hp']
    · intro hne
      simp [credentials.toJson, Json.field, Json.keys, hne]
    · intro he
      simp [credentials.toJson, Json.field, Json.keys, he]
    · rw [Update_of_creds client inp _ hm]
      simp [makeReqBody, bytesToString]
    · exact UpdateCredentials_of_creds client inp _ hm
  · intro e hc
    exact Update_of_err client inp none e (makeCredentials_of_NewCiper_err client inp key e hk hc)
  · intro c x e hc hu
    exact Update_of_err client inp none e
      (makeCredentials_of_Username_err client inp key c x e hk hc hu)
  · intro c u x e hc hu hp
    exact Update_of_err client inp none e
      (makeCredentials_of_Password_err client inp key c u x e hk hc hu hp)

/-- Witness of C6, amended: the sample key with user "admin" (both encryptions
succeed, the fields sent differ from "admin" and "secret", the key id is sent),
the empty encoded key (no cipher), an empty user
name and an empty password (the encryption fails). -/
theorem makeCredentials_encrypted_witness :
    (∃ doc : Json,
      makeCredentials sampleClient
          (NewUpdateInput "44444444-4444-4444-4444-444444444444" "admin" "secret"
            (some sampleKey) "NEW") = .returned (some (Json.render doc)) none ∧
      doc.field "username" = some (.str "rsa(QUJD,0,admin)") ∧
      doc.field "password" = some (.str "rsa(QUJD,1,secret)") ∧
      doc.field "username" ≠ some (.str "admin") ∧
      doc.field "password" ≠ some (.str "secret") ∧
      doc.field "keyId" = some (.str "01010101-0101-0101-0101-010101010101")) ∧
    Update sampleClient
        (NewUpdateInput "44444444-4444-4444-4444-444444444444" "admin" "secret"
          (some { EncodedKey := "", Version := 0, KeyId := "" }) "NEW") =
      ⟨[], .returned none (some ⟨"empty public key"⟩)⟩ ∧
    UpdateCredentials sampleClient
        (NewUpdateInput "44444444-4444-4444-4444-444444444444" "" "secret"
          (some sampleKey) "NEW") =
      ⟨[], .returned none (some ⟨"nothing to encrypt"⟩)⟩ ∧
    Update sampleClient
        (NewUpdateInput "44444444-4444-4444-4444-444444444444" "admin" ""
          (some sampleKey) "NEW") =
      ⟨[], .returned none (some ⟨"nothing to encrypt"⟩)⟩ := by
  refine ⟨?_, ?_, ?_, ?_⟩
  · obtain ⟨doc, h1, h2, h3, hplain, h4, _⟩ :=
      (makeCredentials_encrypted sampleClient
        (NewUpdateInput "44444444-4444-4444-4444-444444444444" "admin" "secret"
          (some sampleKey) "NEW") sampleKey rfl).1
        "QUJD" "rsa(QUJD,0,admin)" "rsa(QUJD,1,secret)" rfl rfl rfl
    exact ⟨doc, h1, h2, h3, (hplain sampleClient_Encrypt_ne).1, (hplain sampleClient_Encrypt_ne).2,
      (h4 (by decide)).2⟩
  · exact ((makeCredentials_encrypted sampleClient
        (NewUpdateInput "44444444-4444-4444-4444-444444444444" "admin" "secret"
          (some { EncodedKey := "", Version := 0, KeyId := "" }) "NEW")
        { EncodedKey := "", Version := 0, KeyId := "" } rfl).2.1
        ⟨"empty public key"⟩ rfl).1
  · exact ((makeCredentials_encrypted sampleClient
        (NewUpdateInput "44444444-4444-4444-4444-444444444444" "" "secret"
          (some sampleKey) "NEW") sampleKey rfl).2.2.1
        "QUJD" "" ⟨"nothing to encrypt"⟩ rfl rfl).2
  · exact ((makeCredentials_encrypted sampleClient
        (NewUpdateInput "44444444-4444-4444-4444-444444444444" "admin" ""
          (some sampleKey) "NEW") sampleKey rfl).2.2.2
        "QUJD" "rsa(QUJD,0,admin)" "" ⟨"nothing to encrypt"⟩ rfl rfl rfl).1

end asaconfig

theorem Occurs.refl (s : String) : Occurs s s :=
  List.infix_refl _

theorem Occurs.append_right {p a : String} (b : String) (h : Occurs p a) : Occurs p (a ++ b) := by
  unfold Occurs at *
  rw [String.data_append]
  exact h.trans (List.infix_append' [] a.data b.data)

theorem Occurs.append_left {p b : String} (a : String) (h : Occurs p b) : Occurs p (a ++ b) := by
  unfold Occurs at *
  rw [String.data_append]
  exact h.trans (List.suffix_append a.data b.data).isInfix

namespace fmt

theorem occurs_joinBlank {x : String} {xs : List String} (h : x ∈ xs) :
    Occurs x (joinBlank xs) := by
  induction xs with
  | nil => cases h
  | cons y ys ih =>
    cases ys with
    | nil =>
      have hx : x = y := by simpa using h
      subst hx
      exact Occurs.refl _
    | cons z zs =>
      rcases List.mem_cons.1 h with hx | hx
      · subst hx
        exact Occurs.append_right _ (Occurs.append_right _ (Occurs.refl _))
      · exact Occurs.append_left _ (ih hx)

theorem occurs_formatSlice {x : String} {xs : List String} (h : x ∈ xs) :
    Occurs x (formatSlice xs) :=
  Occurs.append_right _ (Occurs.append_left _ (occurs_joinBlank h))

end fmt

namespace cloudfmc

theorem Find_of_absent (r : ReadAccessPoliciesOutput) (name : String)
    (h : ∀ item ∈ r.Items, item.Name ≠ name) :
    r.Find name = ({ Id := "", Name := "" }, false) := by
  have hnone : r.Items.find? (fun item => item.Name == name) = none := by
    rw [List.find?_eq_none]
    intro item hitem
    simpa using h item hitem
  simp [ReadAccessPoliciesOutput.Find, hnone]

end cloudfmc

namespace cloudftd

theorem Create_first_four {D : Decls} (client : Client D) (createInp : CreateInput D)
    (fmcRes : cloudfmc.ReadOutput) (dom : fmcplatform.ReadDomainInfoOutput)
    (d : fmcplatform.DomainItem) (ds : List fmcplatform.DomainItem)
    (pols : cloudfmc.ReadAccessPoliciesOutput) (policy : cloudfmc.Item)
    (licenses : List D.license)
    (h1 : client.Read = (some fmcRes, none))
    (h2 : client.ReadFmcDomainInfo fmcRes.Host = (some dom, none))
    (h2i : dom.Items = d :: ds)
    (h3 : client.ReadAccessPolicies fmcRes.Host d.Uuid 1000 = (some pols, none))
    (h3f : pols.Find createInp.AccessPolicyName = (policy, true))
    (hl : createInp.Licenses = some licenses) :
    (Create client createInp).trace.take 4 =
      [.Read, .ReadFmcDomainInfo fmcRes.Host, .ReadAccessPolicies fmcRes.Host d.Uuid 1000,
        .Post (client.CreateDevice client.BaseUrl)
          (requestBody client createInp fmcRes policy licenses)] := by
  simp only [Create, h1, h2, h2i, h3, h3f, hl]
  repeat' split
  all_goals simp [requestBody, *]

/-- C1. For every CreateInput with non-nil Licenses for which steps 1 to 3
succeed (cloud FMC read, domain info read with a non-empty item list, access
policies read and the policy name found), the fourth call of `Create` is the POST
of the creation request, and the `Metadata.PerformanceTier` of its body is the
PerformanceTier of the caller when Virtual is true and nil when Virtual is
false, whatever tier the caller supplied. -/
theorem Create_performance_tier {D : Decls} (client : Client D) (createInp : CreateInput D)
    (fmcRes : cloudfmc.ReadOutput) (dom : fmcplatform.ReadDomainInfoOutput)
    (d : fmcplatform.DomainItem) (ds : List fmcplatform.DomainItem)
    (pols : cloudfmc.ReadAccessPoliciesOutput) (policy : cloudfmc.Item)
    (licenses : List D.license)
    (h1 : client.Read = (some fmcRes, none))
    (h2 : client.ReadFmcDomainInfo fmcRes.Host = (some dom, none))
    (h2i : dom.Items = d :: ds)
    (h3 : client.ReadAccessPolicies fmcRes.Host d.Uuid 1000 = (some pols, none))
    (h3f : pols.Find createInp.AccessPolicyName = (policy, true))
    (hl : createInp.Licenses = some licenses) :
    ∃ (body : createRequestBody D) (metadata : Metadata D),
      (Create client createInp).trace.take 4 =
        [.Read, .ReadFmcDomainInfo fmcRes.Host, .ReadAccessPolicies fmcRes.Host d.Uuid 1000,
          .Post (client.CreateDevice client.BaseUrl) body] ∧
      body.Metadata = some metadata ∧
      (createInp.Virtual = true → metadata.PerformanceTier = createInp.PerformanceTier) ∧
      (createInp.Virtual = false → metadata.PerformanceTier = none) := by
  refine ⟨requestBody client createInp fmcRes policy licenses, _,
    Create_first_four client createInp fmcRes dom d ds pols policy licenses h1 h2 h2i h3 h3f hl,
    rfl, ?_, ?_⟩
  · intro hv
    simp [hv]
  · intro hv
    simp [hv]

/-- Witness of C1: a physical device (Virtual false) asking for tier "FTDv10";
the body that is posted carries no tier. -/
theorem Create_performance_tier_witness :
    ∃ (body : createRequestBody sampleDecls) (metadata : Metadata sampleDecls),
      (Create (sampleClient 0) (sampleInput "Strict" false)).trace.take 4 =
        [.Read, .ReadFmcDomainInfo "fmc.unittest.cdo.cisco.com",
          .ReadAccessPolicies "fmc.unittest.cdo.cisco.com" "domain-uuid" 1000,
          .Post "https://unittest.cdo.cisco.com/aegis/rest/v1/services/targets/devices" body] ∧
      body.Metadata = some metadata ∧
      (sampleInput "Strict" false).PerformanceTier = some "FTDv10" ∧
      metadata.PerformanceTier = none := by
  obtain ⟨body, metadata, ht, hm, _, hp⟩ :=
    Create_performance_tier (sampleClient 0) (sampleInput "Strict" false)
      { Uid := "fmc-uid", Host := "fmc.unittest.cdo.cisco.com" }
      { Items := [{ Uuid := "domain-uuid" }] } { Uuid := "domain-uuid" } []
      { Items := [{ Id := "policy-1", Name := "Default Access Control Policy" },
                  { Id := "policy-2", Name := "Strict" }] }
      { Id := "policy-2", Name := "Strict" } ["BASE"] rfl rfl rfl rfl (by decide) rfl
  exact ⟨body, metadata, ht, hm, rfl, hp rfl⟩

/-- C8. For every CreateInput with non-nil Licenses for which all remote calls
succeed, the domain item list is not empty and the access policy name is found,
`Create` returns a nil error and a CreateOutput whose Uid, Name and Tags are
those of the response to the creation POST and whose Metadata is the record left
by the poll step; the specific-device lookup and the poll both use the Uid of
the creation response. -/
theorem Create_success {D : Decls} (client : Client D) (createInp : CreateInput D)
    (fmcRes : cloudfmc.ReadOutput) (dom : fmcplatform.ReadDomainInfoOutput)
    (d : fmcplatform.DomainItem) (ds : List fmcplatform.DomainItem)
    (pols : cloudfmc.ReadAccessPoliciesOutput) (policy : cloudfmc.Item)
    (licenses : List D.license) (createOup : CreateOutput D)
    (readSpecRes : device.ReadSpecificOutput) (metadata : Metadata D)
    (h1 : client.Read = (some fmcRes, none))
    (h2 : client.ReadFmcDomainInfo fmcRes.Host = (some dom, none))
    (h2i : dom.Items = d :: ds)
    (h3 : client.ReadAccessPolicies fmcRes.Host d.Uuid 1000 = (some pols, none))
    (h3f : pols.Find createInp.AccessPolicyName = (policy, true))
    (hl : createInp.Licenses = some licenses)
    (h4 : client.Send (client.CreateDevice client.BaseUrl)
      (requestBody client createInp fmcRes policy licenses) = .ok createOup)
    (h5 : client.ReadSpecific createOup.Uid = (some readSpecRes, none))
    (h6 : client.UpdateSpecific readSpecRes.SpecificUid "INITIATE_FTDC_ONBOARDING" = none)
    (h7 : client.UntilGeneratedCommandAvailable createOup.Uid = (none, metadata)) :
    Create client createInp =
      ⟨[.Read, .ReadFmcDomainInfo fmcRes.Host, .ReadAccessPolicies fmcRes.Host d.Uuid 1000,
          .Post (client.CreateDevice client.BaseUrl)
            (requestBody client createInp fmcRes policy licenses),
          .ReadSpecific createOup.Uid,
          .UpdateSpecific readSpecRes.SpecificUid "INITIATE_FTDC_ONBOARDING",
          .UntilGeneratedCommandAvailable createOup.Uid],
        .returned (some
          { Uid := createOup.Uid, Name := createOup.Name, Metadata := some metadata,
            Tags := createOup.Tags }) none⟩ := by
  simp only [requestBody] at h4
  simp only [Create, h1, h2, h2i, h3, h3f, hl, h4, h5, h6, h7, requestBody]

/-- Witness of C8: a virtual device under the policy "Strict"; the response to
the POST echoes the metadata of the request (tier "FTDv10"), the poll leaves a
record with tier "FTDv5", and it is the latter that `Create` returns. -/
theorem Create_success_witness :
    (Create (sampleClient 0) (sampleInput "Strict" true)).outcome =
      .returned (some
        { Uid := "ftd-uid", Name := "ftd-1",
          Metadata := some
            { AccessPolicyName := "Default Access Control Policy", AccessPolicyUid := "policy-1",
              LicenseCaps := "BASE", PerformanceTier := some "FTDv5" },
          Tags := ["lab"] }) none ∧
    (Create (sampleClient 0) (sampleInput "Strict" true)).trace.drop 4 =
      [.ReadSpecific "ftd-uid", .UpdateSpecific "ftd-specific-uid" "INITIATE_FTDC_ONBOARDING",
        .UntilGeneratedCommandAvailable "ftd-uid"] := by
  have h := Create_success (sampleClient 0) (sampleInput "Strict" true)
      { Uid := "fmc-uid", Host := "fmc.unittest.cdo.cisco.com" }
      { Items := [{ Uuid := "domain-uuid" }] } { Uuid := "domain-uuid" } []
      { Items := [{ Id := "policy-1", Name := "Default Access Control Policy" },
                  { Id := "policy-2", Name := "Strict" }] }
      { Id := "policy-2", Name := "Strict" } ["BASE"]
      { Uid := "ftd-uid", Name := "ftd-1",
        Metadata := some
          { AccessPolicyName := "Strict", AccessPolicyUid := "policy-2",
            LicenseCaps := "BASE", PerformanceTier := some "FTDv10" },
        Tags := ["lab"] }
      { SpecificUid := "ftd-specific-uid" }
      { AccessPolicyName := "Default Access Control Policy", AccessPolicyUid := "policy-1",
        LicenseCaps := "BASE", PerformanceTier := some "FTDv5" }
      rfl rfl rfl rfl (by decide) rfl rfl rfl rfl rfl
  rw [h]
  exact ⟨rfl, rfl⟩

/-- C2. For every access-policy list returned by the controller that has no item
whose name equals `CreateInput.AccessPolicyName`, `Create` returns a nil output and
a non-nil error after the three reads, without the creation POST or any later
call, and the message of the error contains the requested name, the text of
every policy of the list, and the URL for raising an issue. -/
theorem Create_policy_not_found {D : Decls} (client : Client D) (createInp : CreateInput D)
    (fmcRes : cloudfmc.ReadOutput) (dom : fmcplatform.ReadDomainInfoOutput)
    (d : fmcplatform.DomainItem) (ds : List fmcplatform.DomainItem)
    (pols : cloudfmc.ReadAccessPoliciesOutput)
    (h1 : client.Read = (some fmcRes, none))
    (h2 : client.ReadFmcDomainInfo fmcRes.Host = (some dom, none))
    (h2i : dom.Items = d :: ds)
    (h3 : client.ReadAccessPolicies fmcRes.Host d.Uuid 1000 = (some pols, none))
    (habsent : ∀ item ∈ pols.Items, item.Name ≠ createInp.AccessPolicyName) :
    Create client createInp =
      ⟨[.Read, .ReadFmcDomainInfo fmcRes.Host,
          .ReadAccessPolicies fmcRes.Host d.Uuid 1000],
        .returned none
          (some (policyNotFound client createInp.AccessPolicyName pols.Items))⟩ ∧
    (∀ url body, Call.Post url body ∉ (Create client createInp).trace) ∧
    Occurs createInp.AccessPolicyName
      (policyNotFound client createInp.AccessPolicyName pols.Items).message ∧
    (∀ item ∈ pols.Items, Occurs (client.formatItem item)
      (policyNotFound client createInp.AccessPolicyName pols.Items).message) ∧
    Occurs client.TerraformProviderCDOIssuesUrl
      (policyNotFound client createInp.AccessPolicyName pols.Items).message := by
  have hf := cloudfmc.Find_of_absent pols createInp.AccessPolicyName habsent
  have hc : Create client createInp =
      ⟨[.Read, .ReadFmcDomainInfo fmcRes.Host, .ReadAccessPolicies fmcRes.Host d.Uuid 1000],
        .returned none (some (policyNotFound client createInp.AccessPolicyName pols.Items))⟩ := by
    simp only [Create, h1, h2, h2i, h3, hf]
  refine ⟨hc, ?_, ?_, ?_, ?_⟩
  · intro url body hmem
    rw [hc] at hmem
    simp at hmem
  · exact Occurs.append_right _ (Occurs.append_right _ (Occurs.append_right _
      (Occurs.append_right _ (Occurs.append_left _ (Occurs.refl _)))))
  · intro item hitem
    exact Occurs.append_right _ (Occurs.append_right _ (Occurs.append_left _
      (fmt.occurs_formatSlice (List.mem_map_of_mem _ hitem))))
  · exact Occurs.append_left _ (Occurs.refl _)

/-- Witness of C2: the policy "Missing" is not among the two policies on offer. -/
theorem Create_policy_not_found_witness :
    Create (sampleClient 0) (sampleInput "Missing" true) =
      ⟨[.Read, .ReadFmcDomainInfo "fmc.unittest.cdo.cisco.com",
          .ReadAccessPolicies "fmc.unittest.cdo.cisco.com" "domain-uuid" 1000],
        .returned none (some ⟨"access policy: \"Missing\" not found, available policies: [\x7bpolicy-1 Default Access Control Policy\x7d \x7bpolicy-2 Strict\x7d]. In rare cases where you have more than 1000 access policies, please raise an issue at: https://github.com/CiscoDevnet/terraform-provider-cdo/issues"⟩)⟩ := by
  have h := (Create_policy_not_found (sampleClient 0) (sampleInput "Missing" true)
      { Uid := "fmc-uid", Host := "fmc.unittest.cdo.cisco.com" }
      { Items := [{ Uuid := "domain-uuid" }] } { Uuid := "domain-uuid" } []
      { Items := [{ Id := "policy-1", Name := "Default Access Control Policy" },
                  { Id := "policy-2", Name := "Strict" }] }
      rfl rfl rfl rfl (by decide)).1
  rw [h]
  rfl

theorem Create_outcome {D : Decls} (client : Client D) (createInp : CreateInput D) :
    (Create client createInp).outcome = .panicked ∨
    (∃ e, (Create client createInp).outcome = .returned none (some e)) ∨
    (∃ o, (Create client createInp).outcome = .returned (some o) none) := by
  rcases h1 : client.Read with ⟨x1, _ | e1⟩
  swap
  · cases x1 <;> simp [Create, h1]
  rcases x1 with _ | fmcRes
  · simp [Create, h1]
  rcases h2 : client.ReadFmcDomainInfo fmcRes.Host with ⟨x2, _ | e2⟩
  swap
  · cases x2 <;> simp [Create, h1, h2]
  rcases x2 with _ | dom
  · simp [Create, h1, h2]
  rcases h2i : dom.Items with _ | ⟨d, ds⟩
  · simp [Create, h1, h2, h2i]
  rcases h3 : client.ReadAccessPolicies fmcRes.Host d.Uuid 1000 with ⟨x3, _ | e3⟩
  swap
  · cases x3 <;> simp [Create, h1, h2, h2i, h3]
  rcases x3 with _ | pols
  · simp [Create, h1, h2, h2i, h3]
  rcases h3f : pols.Find createInp.AccessPolicyName with ⟨policy, _ | _⟩
  · simp [Create, h1, h2, h2i, h3, h3f]
  rcases hl : createInp.Licenses with _ | licenses
  · simp [Create, h1, h2, h2i, h3, h3f, hl]
  rcases h4 : client.Send (client.CreateDevice client.BaseUrl)
    (requestBody client createInp fmcRes policy licenses) with e4 | createOup
  · simp only [requestBody] at h4
    simp [Create, h1, h2, h2i, h3, h3f, hl, h4]
  simp only [requestBody] at h4
  rcases h5 : client.ReadSpecific createOup.Uid with ⟨x5, _ | e5⟩
  swap
  · cases x5 <;> simp [Create, h1, h2, h2i, h3, h3f, hl, h4, h5]
  rcases x5 with _ | readSpecRes
  · simp [Create, h1, h2, h2i, h3, h3f, hl, h4, h5]
  rcases h6 : client.UpdateSpecific readSpecRes.SpecificUid "INITIATE_FTDC_ONBOARDING"
    with _ | e6
  swap
  · simp [Create, h1, h2, h2i, h3, h3f, hl, h4, h5, h6]
  rcases h7 : client.UntilGeneratedCommandAvailable createOup.Uid with ⟨_ | e7, metadata⟩
  · simp [Create, h1, h2, h2i, h3, h3f, hl, h4, h5, h6, h7]
  · simp [Create, h1, h2, h2i, h3, h3f, hl, h4, h5, h6, h7]

/-- C7. For each step of the workflow of `Create` (read cloud FMC, read domain
info, read access policies, creation POST, read specific device, trigger
INITIATE_FTDC_ONBOARDING, poll): if the steps before it succeed and that step
returns an error e, then `Create` returns a nil output together with e itself, and
the calls it has issued are exactly the steps up to the failing one: none of the
later calls and no call that would delete the created device. For the steps
from the POST on, reaching the step means that Licenses is not nil. Moreover,
whenever `Create` returns, output and error are neither both nil nor both
non-nil. -/
theorem Create_aborts_on_first_error {D : Decls} (client : Client D)
    (createInp : CreateInput D) :
    (∀ x e, client.Read = (x, some e) →
      Create client createInp = ⟨[.Read], .returned none (some e)⟩) ∧
    (∀ fmcRes, client.Read = (some fmcRes, none) →
      (∀ x e, client.ReadFmcDomainInfo fmcRes.Host = (x, some e) →
        Create client createInp =
          ⟨[.Read, .ReadFmcDomainInfo fmcRes.Host], .returned none (some e)⟩) ∧
      (∀ dom d ds, client.ReadFmcDomainInfo fmcRes.Host = (some dom, none) →
        dom.Items = d :: ds →
        (∀ x e, client.ReadAccessPolicies fmcRes.Host d.Uuid 1000 = (x, some e) →
          Create client createInp =
            ⟨[.Read, .ReadFmcDomainInfo fmcRes.Host,
                .ReadAccessPolicies fmcRes.Host d.Uuid 1000],
              .returned none (some e)⟩) ∧
        (∀ pols policy licenses,
          client.ReadAccessPolicies fmcRes.Host d.Uuid 1000 = (some pols, none) →
          pols.Find createInp.AccessPolicyName = (policy, true) →
          createInp.Licenses = some licenses →
          (∀ e, client.Send (client.CreateDevice client.BaseUrl)
              (requestBody client createInp fmcRes policy licenses) = .error e →
            Create client createInp =
              ⟨[.Read, .ReadFmcDomainInfo fmcRes.Host,
                  .ReadAccessPolicies fmcRes.Host d.Uuid 1000,
                  .Post (client.CreateDevice client.BaseUrl)
                    (requestBody client createInp fmcRes policy licenses)],
                .returned none (some e)⟩) ∧
          (∀ createOup, client.Send (client.CreateDevice client.BaseUrl)
              (requestBody client createInp fmcRes policy licenses) = .ok createOup →
            (∀ x e, client.ReadSpecific createOup.Uid = (x, some e) →
              Create client createInp =
                ⟨[.Read, .ReadFmcDomainInfo fmcRes.Host,
                    .ReadAccessPolicies fmcRes.Host d.Uuid 1000,
                    .Post (client.CreateDevice client.BaseUrl)
                      (requestBody client createInp fmcRes policy licenses),
                    .ReadSpecific createOup.Uid],
                  .returned none (some e)⟩) ∧
            (∀ readSpecRes, client.ReadSpecific createOup.Uid = (some readSpecRes, none) →
              (∀ e, client.UpdateSpecific readSpecRes.SpecificUid
                  "INITIATE_FTDC_ONBOARDING" = some e →
                Create client createInp =
                  ⟨[.Read, .ReadFmcDomainInfo fmcRes.Host,
                      .ReadAccessPolicies fmcRes.Host d.Uuid 1000,
                      .Post (client.CreateDevice client.BaseUrl)
                        (requestBody client createInp fmcRes policy licenses),
                      .ReadSpecific createOup.Uid,
                      .UpdateSpecific readSpecRes.SpecificUid "INITIATE_FTDC_ONBOARDING"],
                    .returned none (some e)⟩) ∧
              (client.UpdateSpecific readSpecRes.SpecificUid
                  "INITIATE_FTDC_ONBOARDING" = none →
                ∀ e metadata,
                  client.UntilGeneratedCommandAvailable createOup.Uid = (some e, metadata) →
                  Create client createInp =
                    ⟨[.Read, .ReadFmcDomainInfo fmcRes.Host,
                        .ReadAccessPolicies fmcRes.Host d.Uuid 1000,
                        .Post (client.CreateDevice client.BaseUrl)
                          (requestBody client createInp fmcRes policy licenses),
                        .ReadSpecific createOup.Uid,
                        .UpdateSpecific readSpecRes.SpecificUid "INITIATE_FTDC_ONBOARDING",
                        .UntilGeneratedCommandAvailable createOup.Uid],
                      .returned none (some e)⟩)))))) ∧
    (∀ out err, (Create client createInp).outcome = .returned out err →
      ¬ (out = none ∧ err = none) ∧ ¬ (out ≠ none ∧ err ≠ none)) := by
  refine ⟨?_, ?_, ?_⟩
  · intro x e h1
    cases x <;> simp only [Create, h1]
  · intro fmcRes h1
    refine ⟨?_, ?_⟩
    · intro x e h2
      cases x <;> simp only [Create, h1, h2]
    · intro dom d ds h2 h2i
      refine ⟨?_, ?_⟩
      · intro x e h3
        cases x <;> simp only [Create, h1, h2, h2i, h3]
      · intro pols policy licenses h3 h3f hl
        refine ⟨?_, ?_⟩
        · intro e h4
          simp only [requestBody] at h4
          simp only [Create, h1, h2, h2i, h3, h3f, hl, h4, requestBody]
        · intro createOup h4
          simp only [requestBody] at h4
          refine ⟨?_, ?_⟩
          · intro x e h5
            cases x <;> simp only [Create, h1, h2, h2i, h3, h3f, hl, h4, h5, requestBody]
          · intro readSpecRes h5
            refine ⟨?_, ?_⟩
            · intro e h6
              simp only [Create, h1, h2, h2i, h3, h3f, hl, h4, h5, h6, requestBody]
            · intro h6 e metadata h7
              simp only [Create, h1, h2, h2i, h3, h3f, hl, h4, h5, h6, h7, requestBody]
  · intro out err h
    rcases Create_outcome client createInp with hp | ⟨e, he⟩ | ⟨o, ho⟩
    · rw [hp] at h
      cases h
    · rw [he] at h
      cases h
      simp
    · rw [ho] at h
      cases h
      simp

/-- Witness of C7: the seven runs in which step 1, 2, ..., 7 is the first to fail;
each returns the error of that step and stops there. -/
theorem Create_aborts_on_first_error_witness :
    Create (sampleClient 1) (sampleInput "Strict" true) =
      ⟨[.Read], .returned none (some ⟨"cloud fmc not found"⟩)⟩ ∧
    Create (sampleClient 2) (sampleInput "Strict" true) =
      ⟨[.Read, .ReadFmcDomainInfo "fmc.unittest.cdo.cisco.com"],
        .returned none (some ⟨"domain info unavailable"⟩)⟩ ∧
    Create (sampleClient 3) (sampleInput "Strict" true) =
      ⟨[.Read, .ReadFmcDomainInfo "fmc.unittest.cdo.cisco.com",
          .ReadAccessPolicies "fmc.unittest.cdo.cisco.com" "domain-uuid" 1000],
        .returned none (some ⟨"access policies unavailable"⟩)⟩ ∧
    (Create (sampleClient 4) (sampleInput "Strict" true)).outcome =
      .returned none (some ⟨"device creation rejected"⟩) ∧
    (Create (sampleClient 4) (sampleInput "Strict" true)).trace.length = 4 ∧
    (Create (sampleClient 5) (sampleInput "Strict" true)).outcome =
      .returned none (some ⟨"specific device not found"⟩) ∧
    (Create (sampleClient 5) (sampleInput "Strict" true)).trace.drop 4 =
      [.ReadSpecific "ftd-uid"] ∧
    (Create (sampleClient 6) (sampleInput "Strict" true)).outcome =
      .returned none (some ⟨"onboarding rejected"⟩) ∧
    (Create (sampleClient 6) (sampleInput "Strict" true)).trace.drop 4 =
      [.ReadSpecific "ftd-uid",
        .UpdateSpecific "ftd-specific-uid" "INITIATE_FTDC_ONBOARDING"] ∧
    (Create (sampleClient 7) (sampleInput "Strict" true)).outcome =
      .returned none (some ⟨"retries exhausted"⟩) ∧
    (Create (sampleClient 7) (sampleInput "Strict" true)).trace.drop 4 =
      [.ReadSpecific "ftd-uid",
        .UpdateSpecific "ftd-specific-uid" "INITIATE_FTDC_ONBOARDING",
        .UntilGeneratedCommandAvailable "ftd-uid"] := by
  have s1 := (Create_aborts_on_first_error (sampleClient 1) (sampleInput "Strict" true)).1
    none ⟨"cloud fmc not found"⟩ rfl
  have s2 := ((Create_aborts_on_first_error (sampleClient 2) (sampleInput "Strict" true)).2.1
    { Uid := "fmc-uid", Host := "fmc.unittest.cdo.cisco.com" } rfl).1
    none ⟨"domain info unavailable"⟩ rfl
  have s3 := (((Create_aborts_on_first_error (sampleClient 3) (sampleInput "Strict" true)).2.1
    { Uid := "fmc-uid", Host := "fmc.unittest.cdo.cisco.com" } rfl).2
    { Items := [{ Uuid := "domain-uuid" }] } { Uuid := "domain-uuid" } [] rfl rfl).1
    none ⟨"access policies unavailable"⟩ rfl
  have after3 : ∀ k : Nat, k = 4 ∨ k = 5 ∨ k = 6 ∨ k = 7 → _ := fun k hk =>
    (((Create_aborts_on_first_error (sampleClient k) (sampleInput "Strict" true)).2.1
      { Uid := "fmc-uid", Host := "fmc.unittest.cdo.cisco.com" }
      (by rcases hk with h | h | h | h <;> subst h <;> rfl)).2
      { Items := [{ Uuid := "domain-uuid" }] } { Uuid := "domain-uuid" } []
      (by rcases hk with h | h | h | h <;> subst h <;> rfl) rfl).2
      { Items := [{ Id := "policy-1", Name := "Default Access Control Policy" },
                  { Id := "policy-2", Name := "Strict" }] }
      { Id := "policy-2", Name := "Strict" } ["BASE"]
      (by rcases hk with h | h | h | h <;> subst h <;> rfl) (by decide) rfl
  have s4 := (after3 4 (Or.inl rfl)).1 ⟨"device creation rejected"⟩ rfl
  have s5 := ((after3 5 (Or.inr (Or.inl rfl))).2
    { Uid := "ftd-uid", Name := "ftd-1",
      Metadata := some
        { AccessPolicyName := "Strict", AccessPolicyUid := "policy-2",
          LicenseCaps := "BASE", PerformanceTier := some "FTDv10" },
      Tags := ["lab"] } rfl).1 none ⟨"specific device not found"⟩ rfl
  have s6 := (((after3 6 (Or.inr (Or.inr (Or.inl rfl)))).2
    { Uid := "ftd-uid", Name := "ftd-1",
      Metadata := some
        { AccessPolicyName := "Strict", AccessPolicyUid := "policy-2",
          LicenseCaps := "BASE", PerformanceTier := some "FTDv10" },
      Tags := ["lab"] } rfl).2 { SpecificUid := "ftd-specific-uid" } rfl).1
    ⟨"onboarding rejected"⟩ rfl
  have s7 := (((after3 7 (Or.inr (Or.inr (Or.inr rfl)))).2
    { Uid := "ftd-uid", Name := "ftd-1",
      Metadata := some
        { AccessPolicyName := "Strict", AccessPolicyUid := "policy-2",
          LicenseCaps := "BASE", PerformanceTier := some "FTDv10" },
      Tags := ["lab"] } rfl).2 { SpecificUid := "ftd-specific-uid" } rfl).2 rfl
    ⟨"retries exhausted"⟩
    { AccessPolicyName := "", AccessPolicyUid := "", LicenseCaps := "", PerformanceTier := none }
    rfl
  refine ⟨s1, s2, s3, ?_, ?_, ?_, ?_, ?_, ?_, ?_, ?_⟩
  · rw [s4]
  · rw [s4]; rfl
  · rw [s5]
  · rw [s5]; rfl
  · rw [s6]
  · rw [s6]; rfl
  · rw [s7]
  · rw [s7]; rfl

end cloudftd

namespace connector

/-- C10, evaluated where `Send` fails. Deleting a connector that the remote side
does not know sends one DELETE request to the connector URL and returns the
error of `Send`, but together with a non-nil output (`&DeleteOutput{}`): output
and error are both non-nil. Where `Send` succeeds, the output is non-nil and the
error nil. -/
theorem Delete_output_with_error :
    Delete sampleClient (NewDeleteInput "55555555-5555-5555-5555-555555555555") =
      ⟨[⟨"https://unittest.cdo.cisco.com/aegis/rest/v1/services/targets/proxies/55555555-5555-5555-5555-555555555555"⟩],
        .returned (some {}) (some ⟨"connector not found"⟩)⟩ ∧
    Delete sampleClient (NewDeleteInput "22222222-2222-2222-2222-222222222222") =
      ⟨[⟨"https://unittest.cdo.cisco.com/aegis/rest/v1/services/targets/proxies/22222222-2222-2222-2222-222222222222"⟩],
        .returned (some {}) none⟩ := by
  constructor <;> rfl

theorem Delete_of_Send_error (client : Client) (inp : DeleteInput) (e : Error)
    (h : client.Send ⟨client.DeleteConnector client.BaseUrl inp.Uid⟩ = .error e) :
    Delete client inp =
      ⟨[⟨client.DeleteConnector client.BaseUrl inp.Uid⟩], .returned (some {}) (some e)⟩ := by
  simp [Delete, h]

theorem Delete_of_Send_ok (client : Client) (inp : DeleteInput) (deleteOutp : DeleteOutput)
    (h : client.Send ⟨client.DeleteConnector client.BaseUrl inp.Uid⟩ = .ok deleteOutp) :
    Delete client inp =
      ⟨[⟨client.DeleteConnector client.BaseUrl inp.Uid⟩], .returned (some deleteOutp) none⟩ := by
  simp [Delete, h]

end connector

namespace sdc

/-- C9. For every request that the remote service answers with a 5xx status,
`ReadAll` (as the spec describes it) issues the one GET to the connectors URL and
returns a nil output pointer together with a non-nil error, the error that the
HTTP client makes from that response. -/
theorem ReadAll_remote_failure (client : Client) (resp : Response)
    (hget : client.Get (client.ReadAllConnectors client.BaseUrl) = .ok resp)
    (hlo : 500 ≤ resp.status) (hhi : resp.status ≤ 599) :
    ReadAll client =
      ⟨[client.ReadAllConnectors client.BaseUrl],
        .returned none (some (client.UpstreamError resp))⟩ ∧
    ∃ out err, (ReadAll client).outcome = .returned out err ∧ out = none ∧ err ≠ none := by
  have hnot : ¬ (200 ≤ resp.status ∧ resp.status < 300) := by omega
  have h : ReadAll client =
      ⟨[client.ReadAllConnectors client.BaseUrl],
        .returned none (some (client.UpstreamError resp))⟩ := by
    simp [ReadAll, Send, hget, hnot]
  refine ⟨h, none, some (client.UpstreamError resp), ?_, rfl, ?_⟩
  · rw [h]
  · simp

/-- Witness of C9: GET /aegis/rest/v1/services/targets/proxies answered 500
"service is experiencing issues", as in the third case of `TestReadAll`. -/
theorem ReadAll_remote_failure_witness :
    (testClient remoteIssueResponder).Get
        "https://unittest.cdo.cisco.com/aegis/rest/v1/services/targets/proxies" =
      .ok { status := 500, body := "service is experiencing issues" } ∧
    ∃ out err, (ReadAll (testClient remoteIssueResponder)).outcome = .returned out err ∧
      out = none ∧ err ≠ none :=
  ⟨rfl, (ReadAll_remote_failure (testClient remoteIssueResponder) remoteIssueResponder rfl
    (by decide) (by decide)).2⟩

end sdc
